import Mathlib

/-!
Shallow embedding of `src/result_comparison.py` (the single routine
`vertical_result_comparison`) as an event-trace semantics.

Every matplotlib call that draws or writes is recorded as a `DrawEvent`,
in the order the Python code performs it.  Numeric values are rationals
(the coordinate arithmetic of the source is exact decimal arithmetic).
Text drawn with `ax.text` is represented structurally by `TextContent`:
`raw s` is a plain label string, `valErr v e` is the formatted string
`f"{v:.5f} ± {e:.5f}"`, and `valErrLabel v e l` is `f"{v:.5f} ± {e:.5f} {l}"`.
The `ValueError` raised for an unknown `layout_mode` is modelled by the
`error` field of `RenderOutcome`: when it is `some`, `events` holds exactly
the drawing work performed before the exception propagated, and no
`savefig`/`closeFigure` event occurs.
-/

/-- One element of the `results` list:
`["Name", value, uncertainty, color, marker_style, True]`. -/
structure Result where
  name : String
  value : ℚ
  uncertainty : ℚ
  color : String
  marker_style : String
  is_public : Bool
  deriving Repr, DecidableEq

/-- One element of the `theory_bands` list: `[label, value, uncertainty, color]`. -/
structure TheoryBand where
  label : String
  val : ℚ
  err : ℚ
  color : String
  deriving Repr, DecidableEq

/-- Horizontal alignment (`ha=` argument of `ax.text`). -/
inductive HAlign
  | left
  | center
  | right
  deriving Repr, DecidableEq

/-- Vertical alignment (`va=` argument of `ax.text`). -/
inductive VAlign
  | top
  | center
  | bottom
  deriving Repr, DecidableEq

/-- The content of a text annotation.  `valErr v e` stands for the Python
format string `f"{v:.5f} ± {e:.5f}"` and `valErrLabel v e l` for
`f"{v:.5f} ± {e:.5f} {l}"`. -/
inductive TextContent
  | raw (s : String)
  | valErr (v e : ℚ)
  | valErrLabel (v e : ℚ) (label : String)
  deriving Repr, DecidableEq

/-- Events recorded for the matplotlib calls of the source, in program order. -/
inductive DrawEvent
  | subplots (figwidth figheight : ℚ)
  | set_xlim (lo hi : ℚ)
  | set_xticks (ticks : List ℚ)
  | set_minor_locator
  | set_ylim (lo hi : ℚ)
  | set_xlabel (s : String) (fontsize : ℚ)
  | clear_yticks
  | axvspan (lo hi : ℚ) (color : String) (alpha : ℚ) (label : Option String)
  | text (x y : ℚ) (content : TextContent) (ha : HAlign) (va : VAlign)
      (fontsize : ℚ) (color : Option String) (bold : Bool)
  | errorbar (x y xerr : ℚ) (fmt : String) (markersize : ℚ) (color : String)
      (linewidth : ℚ)
  | axhline (y : ℚ) (linestyle : String) (color : String) (linewidth alpha : ℚ)
  | set_title (s : String)
  | tight_layout
  | savefig (path : String)
  | closeFigure
  deriving Repr, DecidableEq

/-- The `ValueError` raised at line 86 of the source for an unknown
`layout_mode`. -/
inductive RenderError
  | unknownLayoutMode (mode : String)
  deriving Repr, DecidableEq

/-- Result of one call: the drawing events performed, and the exception
that propagated, if any.  On the error path `events` stops at the point
the exception was raised. -/
structure RenderOutcome where
  events : List DrawEvent
  error : Option RenderError
  deriving Repr, DecidableEq

/-- Figure/axis setup performed before any drawing (source lines 28-39). -/
def setup_events (x_min x_max : ℚ) (observable : String) (n : ℕ) : List DrawEvent :=
  [DrawEvent.subplots 8 (0.5 * (n : ℚ) + 1),
   DrawEvent.set_xlim x_min x_max,
   DrawEvent.set_xticks [x_min, (x_min + x_max) / 2, x_max],
   DrawEvent.set_minor_locator,
   DrawEvent.set_ylim (-0.5) ((n : ℚ) - 0.5),
   DrawEvent.set_xlabel observable 14,
   DrawEvent.clear_yticks]

/-- Events drawn for the theory band at enumeration index `i`
(source lines 42-57).  `nQ` is `len(results)` as a rational. -/
def theory_band_events (x_min x_max nQ : ℚ) (layout_mode : String)
    (second_theory : Bool) (i : ℕ) (b : TheoryBand) : List DrawEvent :=
  let x_mid := (b.val - b.err + b.val + b.err) / 2
  let outside_offset := (x_max - x_min) * 0.02
  [DrawEvent.axvspan (b.val - b.err) (b.val + b.err) b.color 0.85
     (if i = 0 then some b.label else none)]
  ++ (if i = 1 ∧ second_theory = true then
        [DrawEvent.text (x_mid + 0.0001) (nQ - 0.4)
           (TextContent.valErrLabel b.val b.err b.label)
           HAlign.right VAlign.bottom 13 (some b.color) false]
      else
        [DrawEvent.text x_mid (nQ - 0.4) (TextContent.raw b.label)
           HAlign.center VAlign.bottom 13 (some b.color) false])
  ++ (if i = 0 then
        if layout_mode = "outside" then
          [DrawEvent.text (x_max + outside_offset) (nQ - 0.4)
             (TextContent.valErr b.val b.err)
             HAlign.left VAlign.bottom 13 (some b.color) false]
        else
          [DrawEvent.text x_max (nQ - 0.4) (TextContent.valErr b.val b.err)
             HAlign.right VAlign.bottom 13 (some b.color) false]
      else [])

/-- The `for i, (label, val, err, color) in enumerate(theory_bands)` loop,
starting at enumeration index `i`. -/
def theory_loop (x_min x_max nQ : ℚ) (layout_mode : String)
    (second_theory : Bool) : ℕ → List TheoryBand → List DrawEvent
  | _, [] => []
  | i, b :: rest =>
      theory_band_events x_min x_max nQ layout_mode second_theory i b
      ++ theory_loop x_min x_max nQ layout_mode second_theory (i + 1) rest

/-- The two text annotations for one measurement row, per `layout_mode`
(source lines 64-83); `none` when the mode is unrecognized (line 85-86). -/
def result_texts (x_min x_max : ℚ) (layout_mode : String) (y : ℚ)
    (r : Result) : Option (List DrawEvent) :=
  let label_offset := (x_max - x_min) * 0.01
  let value_offset := (x_max - x_min) * 0.005
  if layout_mode = "right" then some
    [DrawEvent.text (x_min + label_offset) y (TextContent.raw r.name)
       HAlign.left VAlign.center 13 none true,
     DrawEvent.text (x_max - value_offset) y
       (TextContent.valErr r.value r.uncertainty)
       HAlign.right VAlign.center 13 none false]
  else if layout_mode = "below" then some
    [DrawEvent.text (x_min + label_offset) (y + 0.1) (TextContent.raw r.name)
       HAlign.left VAlign.center 13 none true,
     DrawEvent.text (x_min + label_offset + (x_max - x_min) * 0.02) (y - 0.15)
       (TextContent.valErr r.value r.uncertainty)
       HAlign.left VAlign.top 13 none false]
  else if layout_mode = "outside" then some
    [DrawEvent.text (x_min - (x_max - x_min) * 0.02) y (TextContent.raw r.name)
       HAlign.right VAlign.center 14 none true,
     DrawEvent.text (x_max + (x_max - x_min) * 0.02) y
       (TextContent.valErr r.value r.uncertainty)
       HAlign.left VAlign.center 14 none false]
  else if layout_mode = "outside_below" then some
    [DrawEvent.text (x_min - (x_max - x_min) * 0.02) (y + 0.1)
       (TextContent.raw r.name) HAlign.right VAlign.center 13 none true,
     DrawEvent.text (x_min - (x_max - x_min) * 0.02) (y - 0.2)
       (TextContent.valErr r.value r.uncertainty)
       HAlign.right VAlign.top 13 none false]
  else none

/-- The `for i, (...) in enumerate(reversed(results))` loop (source lines
60-86), starting at row index `i`.  Each iteration draws the error bar
first (line 62), then the mode-specific texts; an unrecognized mode raises
after the error bar, keeping the events emitted so far. -/
def result_loop (x_min x_max : ℚ) (layout_mode : String) :
    ℕ → List Result → List DrawEvent × Option RenderError
  | _, [] => ([], none)
  | i, r :: rest =>
      let eb := DrawEvent.errorbar r.value (i : ℚ) r.uncertainty
        r.marker_style 7 r.color 3
      match result_texts x_min x_max layout_mode (i : ℚ) r with
      | none => ([eb], some (RenderError.unknownLayoutMode layout_mode))
      | some ts =>
          let rec_result := result_loop x_min x_max layout_mode (i + 1) rest
          (eb :: ts ++ rec_result.1, rec_result.2)

/-- The group-separator loop (source lines 89-92).  `y_sep = n - k - 0.5`;
a `None` or empty list draws nothing (Python truthiness). -/
def separator_events (n : ℕ) : Option (List ℤ) → List DrawEvent
  | none => []
  | some l =>
      l.map (fun (k : ℤ) =>
        DrawEvent.axhline ((n : ℚ) - (k : ℚ) - 0.5) "--" "gray" 1 0.5)

/-- Shallow embedding of `vertical_result_comparison` (source lines 5-97). -/
def vertical_result_comparison (x_min x_max : ℚ) (observable : String)
    (results : List Result) (theory_bands : List TheoryBand)
    (output_name : String) (group_separators : Option (List ℤ))
    (layout_mode : String) (second_theory : Bool)
    (output_extension : String) : RenderOutcome :=
  let n := results.length
  let setup := setup_events x_min x_max observable n
  let bands :=
    theory_loop x_min x_max (n : ℚ) layout_mode second_theory 0 theory_bands
  let res := result_loop x_min x_max layout_mode 0 results.reverse
  match res.2 with
  | some e => { events := setup ++ bands ++ res.1, error := some e }
  | none =>
      { events := setup ++ bands ++ res.1
          ++ separator_events n group_separators
          ++ [DrawEvent.set_title "", DrawEvent.tight_layout,
              DrawEvent.savefig (output_name ++ "." ++ output_extension),
              DrawEvent.closeFigure],
        error := none }

/-- The accepted `layout_mode` strings (source lines 64, 68, 73, 79). -/
def isValidLayoutMode (m : String) : Bool :=
  m = "right" || m = "below" || m = "outside" || m = "outside_below"

/-- Discriminator: is this event an `axvspan` call? -/
def DrawEvent.isAxvspanEv : DrawEvent → Bool
  | DrawEvent.axvspan .. => true
  | _ => false

/-- Discriminator: is this event a `text` call? -/
def DrawEvent.isTextEv : DrawEvent → Bool
  | DrawEvent.text .. => true
  | _ => false

/-- Discriminator: is this event an `errorbar` call? -/
def DrawEvent.isErrorbarEv : DrawEvent → Bool
  | DrawEvent.errorbar .. => true
  | _ => false

/-- Discriminator: is this a `text` call whose content is the combined
`f"{val:.5f} ± {err:.5f} {label}"` string (the `second_theory` branch)? -/
def DrawEvent.hasValErrLabel : DrawEvent → Bool
  | DrawEvent.text _ _ (TextContent.valErrLabel ..) .. => true
  | _ => false

lemma mem_theory_band_events_shape {x_min x_max nQ : ℚ} {m : String} {st : Bool}
    {i : ℕ} {b : TheoryBand} {ev : DrawEvent}
    (h : ev ∈ theory_band_events x_min x_max nQ m st i b) :
    ev.isAxvspanEv = true ∨ ev.isTextEv = true := by
  simp only [theory_band_events, List.mem_append, List.mem_singleton] at h
  rcases h with (h | h) | h
  · subst h; left; rfl
  · split at h <;> simp only [List.mem_singleton] at h <;> subst h <;> right <;> rfl
  · split at h
    · split at h <;> simp only [List.mem_singleton] at h <;> subst h <;> right <;> rfl
    · simp at h

lemma mem_theory_loop_shape {x_min x_max nQ : ℚ} {m : String} {st : Bool}
    {i : ℕ} {l : List TheoryBand} {ev : DrawEvent}
    (h : ev ∈ theory_loop x_min x_max nQ m st i l) :
    ev.isAxvspanEv = true ∨ ev.isTextEv = true := by
  induction l generalizing i with
  | nil => simp [theory_loop] at h
  | cons b rest ih =>
      simp only [theory_loop, List.mem_append] at h
      rcases h with h | h
      · exact mem_theory_band_events_shape h
      · exact ih h

lemma result_texts_eq_none (x_min x_max : ℚ) {m : String} (y : ℚ) (r : Result)
    (hm : isValidLayoutMode m = false) :
    result_texts x_min x_max m y r = none := by
  simp only [isValidLayoutMode, Bool.or_eq_false_iff, decide_eq_false_iff_not] at hm
  obtain ⟨⟨⟨h1, h2⟩, h3⟩, h4⟩ := hm
  simp [result_texts, h1, h2, h3, h4]

lemma result_texts_valid_shape (x_min x_max : ℚ) {m : String} (y : ℚ) (r : Result)
    (hm : isValidLayoutMode m = true) :
    ∃ t1 t2, result_texts x_min x_max m y r = some [t1, t2] ∧
      (t1.isTextEv = true ∧ t2.isTextEv = true) ∧
      (t1.hasValErrLabel = false ∧ t2.hasValErrLabel = false) := by
  simp only [isValidLayoutMode, Bool.or_eq_true, decide_eq_true_eq] at hm
  rcases hm with ((h | h) | h) | h <;> subst h <;>
    exact ⟨_, _, rfl, ⟨rfl, rfl⟩, rfl, rfl⟩

lemma result_loop_error_none (x_min x_max : ℚ) {m : String}
    (hm : isValidLayoutMode m = true) (i : ℕ) (l : List Result) :
    (result_loop x_min x_max m i l).2 = none := by
  induction l generalizing i with
  | nil => rfl
  | cons r rest ih =>
      obtain ⟨t1, t2, hts, _, _⟩ := result_texts_valid_shape x_min x_max (i : ℚ) r hm
      simp [result_loop, hts, ih]

lemma mem_result_loop_shape (x_min x_max : ℚ) {m : String} {i : ℕ}
    {l : List Result} {ev : DrawEvent}
    (h : ev ∈ (result_loop x_min x_max m i l).1) :
    ev.isErrorbarEv = true ∨ ev.isTextEv = true := by
  induction l generalizing i with
  | nil => simp [result_loop] at h
  | cons r rest ih =>
      rcases hv : isValidLayoutMode m with _ | _
      · simp only [result_loop, result_texts_eq_none x_min x_max (i : ℚ) r hv,
          List.mem_singleton] at h
        subst h; left; rfl
      · obtain ⟨t1, t2, hts, ⟨h1, h2⟩, -⟩ :=
          result_texts_valid_shape x_min x_max (i : ℚ) r hv
        simp only [result_loop, hts, List.cons_append, List.nil_append,
          List.mem_cons] at h
        rcases h with h | h | h | h
        · subst h; left; rfl
        · subst h; right; exact h1
        · subst h; right; exact h2
        · exact ih h

lemma errorbar_mem_result_loop (x_min x_max : ℚ) {m : String}
    (hm : isValidLayoutMode m = true) (i : ℕ) (l : List Result) (j : ℕ)
    (hj : j < l.length) :
    DrawEvent.errorbar (l.get ⟨j, hj⟩).value ((i + j : ℕ) : ℚ)
      (l.get ⟨j, hj⟩).uncertainty (l.get ⟨j, hj⟩).marker_style 7
      (l.get ⟨j, hj⟩).color 3 ∈ (result_loop x_min x_max m i l).1 := by
  induction l generalizing i j with
  | nil => simp at hj
  | cons r rest ih =>
      obtain ⟨t1, t2, hts, _, _⟩ := result_texts_valid_shape x_min x_max (i : ℚ) r hm
      cases j with
      | zero => simp [result_loop, hts]
      | succ j' =>
          have hj' : j' < rest.length := Nat.lt_of_succ_lt_succ hj
          have hmem := ih (i + 1) j' hj'
          have hcast : ((i + (j' + 1) : ℕ) : ℚ) = (((i + 1) + j' : ℕ) : ℚ) := by
            push_cast; ring
          rw [List.get_cons_succ, hcast]
          simp only [result_loop, hts, List.cons_append, List.nil_append,
            List.mem_cons]
          exact Or.inr (Or.inr (Or.inr hmem))

lemma result_loop_invalid (x_min x_max : ℚ) {m : String}
    (hm : isValidLayoutMode m = false) (i : ℕ) (r : Result) (rest : List Result) :
    result_loop x_min x_max m i (r :: rest) =
      ([DrawEvent.errorbar r.value (i : ℚ) r.uncertainty r.marker_style 7 r.color 3],
       some (RenderError.unknownLayoutMode m)) := by
  simp [result_loop, result_texts_eq_none x_min x_max (i : ℚ) r hm]

lemma vrc_eq_of_valid (x_min x_max : ℚ) (observable : String)
    (results : List Result) (theory_bands : List TheoryBand)
    (output_name : String) (group_separators : Option (List ℤ))
    {layout_mode : String} (second_theory : Bool) (output_extension : String)
    (hm : isValidLayoutMode layout_mode = true) :
    vertical_result_comparison x_min x_max observable results theory_bands
      output_name group_separators layout_mode second_theory output_extension =
    { events := setup_events x_min x_max observable results.length
        ++ theory_loop x_min x_max (results.length : ℚ) layout_mode
             second_theory 0 theory_bands
        ++ (result_loop x_min x_max layout_mode 0 results.reverse).1
        ++ separator_events results.length group_separators
        ++ [DrawEvent.set_title "", DrawEvent.tight_layout,
            DrawEvent.savefig (output_name ++ "." ++ output_extension),
            DrawEvent.closeFigure],
      error := none } := by
  have h2 := result_loop_error_none x_min x_max hm 0 results.reverse
  simp only [vertical_result_comparison, h2]

lemma vrc_eq_of_invalid (x_min x_max : ℚ) (observable : String)
    {results : List Result} (theory_bands : List TheoryBand)
    (output_name : String) (group_separators : Option (List ℤ))
    {layout_mode : String} (second_theory : Bool) (output_extension : String)
    (hm : isValidLayoutMode layout_mode = false) (hne : results ≠ []) :
    vertical_result_comparison x_min x_max observable results theory_bands
      output_name group_separators layout_mode second_theory output_extension =
    { events := setup_events x_min x_max observable results.length
        ++ theory_loop x_min x_max (results.length : ℚ) layout_mode
             second_theory 0 theory_bands
        ++ [DrawEvent.errorbar (results.getLast hne).value 0
              (results.getLast hne).uncertainty
              (results.getLast hne).marker_style 7 (results.getLast hne).color 3],
      error := some (RenderError.unknownLayoutMode layout_mode) } := by
  have hrne : results.reverse ≠ [] := by
    simpa [List.reverse_eq_nil_iff] using hne
  rcases hrev : results.reverse with _ | ⟨r, rest⟩
  · exact absurd hrev hrne
  · have hr : results.getLast hne = r := by
      have h1 := List.getLast?_eq_getLast results hne
      have h2 : results.getLast? = some r := by
        rw [List.getLast?_eq_head?_reverse, hrev]
        rfl
      rw [h1] at h2
      exact Option.some_injective _ h2
    have hloop := result_loop_invalid x_min x_max hm 0 r rest
    simp only [vertical_result_comparison, hrev, hloop, hr]
    norm_num

lemma result_loop_no_valErrLabel (x_min x_max : ℚ) {m : String} {i : ℕ}
    {l : List Result} {ev : DrawEvent}
    (h : ev ∈ (result_loop x_min x_max m i l).1) :
    ev.hasValErrLabel = false := by
  induction l generalizing i with
  | nil => simp [result_loop] at h
  | cons r rest ih =>
      rcases hv : isValidLayoutMode m with _ | _
      · simp only [result_loop, result_texts_eq_none x_min x_max (i : ℚ) r hv,
          List.mem_singleton] at h
        subst h; rfl
      · obtain ⟨t1, t2, hts, -, h3, h4⟩ :=
          result_texts_valid_shape x_min x_max (i : ℚ) r hv
        simp only [result_loop, hts, List.cons_append, List.nil_append,
          List.mem_cons] at h
        rcases h with h | h | h | h
        · subst h; rfl
        · subst h; exact h3
        · subst h; exact h4
        · exact ih h

lemma theory_loop_no_valErrLabel (x_min x_max nQ : ℚ) (m : String) {i : ℕ}
    {l : List TheoryBand} {ev : DrawEvent}
    (h : ev ∈ theory_loop x_min x_max nQ m false i l) :
    ev.hasValErrLabel = false := by
  induction l generalizing i with
  | nil => simp [theory_loop] at h
  | cons b rest ih =>
      simp only [theory_loop, List.mem_append] at h
      rcases h with h | h
      · simp only [theory_band_events, Bool.false_eq_true, and_false, if_false,
          List.mem_append, List.mem_singleton] at h
        rcases h with (h | h) | h
        · subst h; rfl
        · subst h; rfl
        · split at h
          · split at h <;> simp only [List.mem_singleton] at h <;> subst h <;> rfl
          · simp at h
      · exact ih h

lemma theory_loop_subset_vrc (x_min x_max : ℚ) (observable : String)
    (results : List Result) (theory_bands : List TheoryBand)
    (output_name : String) (group_separators : Option (List ℤ))
    (layout_mode : String) (second_theory : Bool) (output_extension : String)
    {ev : DrawEvent}
    (h : ev ∈ theory_loop x_min x_max (results.length : ℚ) layout_mode
          second_theory 0 theory_bands) :
    ev ∈ (vertical_result_comparison x_min x_max observable results theory_bands
      output_name group_separators layout_mode second_theory
      output_extension).events := by
  rcases hres : (result_loop x_min x_max layout_mode 0 results.reverse).2 with _ | e <;>
    simp only [vertical_result_comparison, hres] <;>
    simp [h]

lemma theory_band_events_subset_loop (x_min x_max nQ : ℚ) (m : String)
    (st : Bool) (i j : ℕ) (l : List TheoryBand) (hj : j < l.length)
    {ev : DrawEvent}
    (h : ev ∈ theory_band_events x_min x_max nQ m st (i + j) (l.get ⟨j, hj⟩)) :
    ev ∈ theory_loop x_min x_max nQ m st i l := by
  induction l generalizing i j with
  | nil => simp at hj
  | cons b rest ih =>
      cases j with
      | zero =>
          simp only [theory_loop, List.mem_append]
          left
          simpa using h
      | succ j' =>
          have hj' : j' < rest.length := Nat.lt_of_succ_lt_succ hj
          simp only [theory_loop, List.mem_append]
          right
          rw [List.get_cons_succ] at h
          rw [show i + (j' + 1) = (i + 1) + j' by omega] at h
          exact ih (i + 1) j' hj' h

/-- The legend policy of the band loop, read off line 43 of the source:
the shaded span of the band at enumeration index `i` carries the label
exactly when `i = 0`. -/
def axvspan_with_legend_policy : ℕ → List TheoryBand → List DrawEvent
  | _, [] => []
  | i, b :: rest =>
      DrawEvent.axvspan (b.val - b.err) (b.val + b.err) b.color 0.85
        (if i = 0 then some b.label else none)
      :: axvspan_with_legend_policy (i + 1) rest

lemma filter_axvspan_theory_band_events (x_min x_max nQ : ℚ) (m : String)
    (st : Bool) (i : ℕ) (b : TheoryBand) :
    (theory_band_events x_min x_max nQ m st i b).filter DrawEvent.isAxvspanEv
      = [DrawEvent.axvspan (b.val - b.err) (b.val + b.err) b.color 0.85
          (if i = 0 then some b.label else none)] := by
  simp only [theory_band_events]
  split_ifs <;> rfl

lemma filter_axvspan_theory_loop (x_min x_max nQ : ℚ) (m : String) (st : Bool)
    (i : ℕ) (l : List TheoryBand) :
    (theory_loop x_min x_max nQ m st i l).filter DrawEvent.isAxvspanEv
      = axvspan_with_legend_policy i l := by
  induction l generalizing i with
  | nil => rfl
  | cons b rest ih =>
      simp only [theory_loop, axvspan_with_legend_policy, List.filter_append,
        filter_axvspan_theory_band_events, ih]
      rfl

lemma filter_axvspan_result_loop (x_min x_max : ℚ) (m : String) (i : ℕ)
    (l : List Result) :
    ((result_loop x_min x_max m i l).1).filter DrawEvent.isAxvspanEv = [] := by
  rw [List.filter_eq_nil_iff]
  intro a ha
  rcases mem_result_loop_shape x_min x_max ha with h | h <;>
    cases a <;> simp_all [DrawEvent.isErrorbarEv, DrawEvent.isTextEv,
      DrawEvent.isAxvspanEv]

lemma filter_axvspan_separator_events (n : ℕ) (gs : Option (List ℤ)) :
    (separator_events n gs).filter DrawEvent.isAxvspanEv = [] := by
  rw [List.filter_eq_nil_iff]
  intro a ha
  rcases gs with _ | l
  · simp [separator_events] at ha
  · simp only [separator_events, List.mem_map] at ha
    obtain ⟨k, -, hk⟩ := ha
    subst hk
    simp [DrawEvent.isAxvspanEv]

lemma setup_events_no_errorbar (x_min x_max : ℚ) (o : String) (n : ℕ)
    {ev : DrawEvent} (h : ev ∈ setup_events x_min x_max o n) :
    ev.isErrorbarEv = false := by
  simp only [setup_events, List.mem_cons, List.not_mem_nil, or_false] at h
  rcases h with h | h | h | h | h | h | h <;> subst h <;> rfl

lemma setup_events_no_valErrLabel (x_min x_max : ℚ) (o : String) (n : ℕ)
    {ev : DrawEvent} (h : ev ∈ setup_events x_min x_max o n) :
    ev.hasValErrLabel = false := by
  simp only [setup_events, List.mem_cons, List.not_mem_nil, or_false] at h
  rcases h with h | h | h | h | h | h | h <;> subst h <;> rfl

lemma separator_events_no_errorbar (n : ℕ) (gs : Option (List ℤ))
    {ev : DrawEvent} (h : ev ∈ separator_events n gs) :
    ev.isErrorbarEv = false := by
  rcases gs with _ | l
  · simp [separator_events] at h
  · simp only [separator_events, List.mem_map] at h
    obtain ⟨k, -, hk⟩ := h
    subst hk
    rfl

lemma separator_events_no_valErrLabel (n : ℕ) (gs : Option (List ℤ))
    {ev : DrawEvent} (h : ev ∈ separator_events n gs) :
    ev.hasValErrLabel = false := by
  rcases gs with _ | l
  · simp [separator_events] at h
  · simp only [separator_events, List.mem_map] at h
    obtain ⟨k, -, hk⟩ := h
    subst hk
    rfl

lemma final_events_no_errorbar (p : String) {ev : DrawEvent}
    (h : ev ∈ [DrawEvent.set_title "", DrawEvent.tight_layout,
      DrawEvent.savefig p, DrawEvent.closeFigure]) :
    ev.isErrorbarEv = false := by
  simp only [List.mem_cons, List.not_mem_nil, or_false] at h
  rcases h with h | h | h | h <;> subst h <;> rfl

lemma final_events_no_valErrLabel (p : String) {ev : DrawEvent}
    (h : ev ∈ [DrawEvent.set_title "", DrawEvent.tight_layout,
      DrawEvent.savefig p, DrawEvent.closeFigure]) :
    ev.hasValErrLabel = false := by
  simp only [List.mem_cons, List.not_mem_nil, or_false] at h
  rcases h with h | h | h | h <;> subst h <;> rfl

lemma theory_loop_no_errorbar (x_min x_max nQ : ℚ) (m : String) (st : Bool)
    {i : ℕ} {l : List TheoryBand} {ev : DrawEvent}
    (h : ev ∈ theory_loop x_min x_max nQ m st i l) :
    ev.isErrorbarEv = false := by
  rcases mem_theory_loop_shape h with hs | hs <;> cases ev <;>
    simp_all [DrawEvent.isAxvspanEv, DrawEvent.isTextEv, DrawEvent.isErrorbarEv]

lemma vrc_no_valErrLabel_of_not_second (x_min x_max : ℚ) (observable : String)
    (results : List Result) (theory_bands : List TheoryBand)
    (output_name : String) (group_separators : Option (List ℤ))
    (layout_mode : String) (output_extension : String) {ev : DrawEvent}
    (h : ev ∈ (vertical_result_comparison x_min x_max observable results
      theory_bands output_name group_separators layout_mode false
      output_extension).events) :
    ev.hasValErrLabel = false := by
  rcases hres : (result_loop x_min x_max layout_mode 0 results.reverse).2 with _ | e
  · simp only [vertical_result_comparison, hres, List.append_assoc,
      List.mem_append] at h
    rcases h with h | h | h | h | h
    · exact setup_events_no_valErrLabel x_min x_max observable results.length h
    · exact theory_loop_no_valErrLabel x_min x_max (results.length : ℚ)
        layout_mode h
    · exact result_loop_no_valErrLabel x_min x_max h
    · exact separator_events_no_valErrLabel results.length group_separators h
    · exact final_events_no_valErrLabel (output_name ++ "." ++ output_extension) h
  · simp only [vertical_result_comparison, hres, List.append_assoc,
      List.mem_append] at h
    rcases h with h | h | h
    · exact setup_events_no_valErrLabel x_min x_max observable results.length h
    · exact theory_loop_no_valErrLabel x_min x_max (results.length : ℚ)
        layout_mode h
    · exact result_loop_no_valErrLabel x_min x_max h

lemma filter_axvspan_setup (x_min x_max : ℚ) (o : String) (n : ℕ) :
    (setup_events x_min x_max o n).filter DrawEvent.isAxvspanEv = [] := rfl

lemma filter_axvspan_final (p : String) :
    ([DrawEvent.set_title "", DrawEvent.tight_layout, DrawEvent.savefig p,
      DrawEvent.closeFigure]).filter DrawEvent.isAxvspanEv = [] := rfl

/-- Forgetting the sixth tuple field (publication-status flag); rendering
reads only the other five. -/
def forgetFlag (r : Result) : Result :=
  { r with is_public := false }

@[simp] lemma forgetFlag_name (r : Result) : (forgetFlag r).name = r.name := rfl

@[simp] lemma forgetFlag_value (r : Result) : (forgetFlag r).value = r.value := rfl

@[simp] lemma forgetFlag_uncertainty (r : Result) :
    (forgetFlag r).uncertainty = r.uncertainty := rfl

@[simp] lemma forgetFlag_color (r : Result) : (forgetFlag r).color = r.color := rfl

@[simp] lemma forgetFlag_marker (r : Result) :
    (forgetFlag r).marker_style = r.marker_style := rfl

lemma result_texts_forgetFlag (x_min x_max : ℚ) (m : String) (y : ℚ)
    (r : Result) :
    result_texts x_min x_max m y (forgetFlag r)
      = result_texts x_min x_max m y r := rfl

lemma result_loop_forgetFlag (x_min x_max : ℚ) (m : String) (i : ℕ)
    (l : List Result) :
    result_loop x_min x_max m i (l.map forgetFlag)
      = result_loop x_min x_max m i l := by
  induction l generalizing i with
  | nil => rfl
  | cons r rest ih =>
      rcases hts : result_texts x_min x_max m (i : ℚ) r with _ | ts <;>
        simp [result_loop, result_texts_forgetFlag, hts, ih]

lemma vrc_forgetFlag (x_min x_max : ℚ) (observable : String)
    (results : List Result) (theory_bands : List TheoryBand)
    (output_name : String) (group_separators : Option (List ℤ))
    (layout_mode : String) (second_theory : Bool) (output_extension : String) :
    vertical_result_comparison x_min x_max observable (results.map forgetFlag)
      theory_bands output_name group_separators layout_mode second_theory
      output_extension
    = vertical_result_comparison x_min x_max observable results theory_bands
        output_name group_separators layout_mode second_theory
        output_extension := by
  have hrev : (results.map forgetFlag).reverse = results.reverse.map forgetFlag := by
    simp
  simp only [vertical_result_comparison, List.length_map, hrev,
    result_loop_forgetFlag]

/-- Concrete measurement "A" from the spec example scenario
(value 1.0, uncertainty 0.1, black circle, published). -/
def sampleA : Result := ⟨"A", 1, 1/10, "black", "o", true⟩

/-- Concrete measurement "B" from the spec example scenario
(value 2.0, uncertainty 0.2, black circle, published). -/
def sampleB : Result := ⟨"B", 2, 1/5, "black", "o", true⟩

/-- Same data as `sampleA` but with the publication-status flag cleared. -/
def sampleA_private : Result := ⟨"A", 1, 1/10, "black", "o", false⟩

/-- Concrete theory band from the spec example scenario
(SM, 1.5 ± 0.05, orange). -/
def sampleSM : TheoryBand := ⟨"SM", 3/2, 1/20, "orange"⟩

/-- Concrete second theory band (2H, 1.0 ± 0.1). -/
def sample2H : TheoryBand := ⟨"2H", 1, 1/10, "#1EA5FF"⟩

/-- Claim C1, counterexample: a call with the unrecognized layout_mode
"bogus" but an EMPTY measurement list raises nothing (the check sits inside
the measurement loop, which never runs) and still writes the output file.
This refutes the claim's universal "for every call". -/
theorem C1_cex_empty_results_bogus_mode_writes_file :
    isValidLayoutMode "bogus" = false ∧
    (vertical_result_comparison 0 3 "x" [] [sampleSM] "out" none "bogus"
      false "pdf").error = none ∧
    DrawEvent.savefig "out.pdf" ∈
      (vertical_result_comparison 0 3 "x" [] [sampleSM] "out" none "bogus"
        false "pdf").events := by
  refine ⟨by decide, rfl, ?_⟩
  decide

/-- Claim C1 (amended): for every call with a NON-EMPTY measurement list and
an unrecognized layout_mode string, rendering fails with the
unknown-layout-mode error and no savefig event occurs, i.e. no output file
is written. -/
theorem C1_nonempty_invalid_mode_fails_without_output
    (x_min x_max : ℚ) (observable : String) (results : List Result)
    (theory_bands : List TheoryBand) (output_name : String)
    (group_separators : Option (List ℤ)) (layout_mode : String)
    (second_theory : Bool) (output_extension : String)
    (hne : results ≠ []) (hm : isValidLayoutMode layout_mode = false) :
    (vertical_result_comparison x_min x_max observable results theory_bands
      output_name group_separators layout_mode second_theory
      output_extension).error
        = some (RenderError.unknownLayoutMode layout_mode) ∧
    ∀ p : String, DrawEvent.savefig p ∉
      (vertical_result_comparison x_min x_max observable results theory_bands
        output_name group_separators layout_mode second_theory
        output_extension).events := by
  rw [vrc_eq_of_invalid x_min x_max observable theory_bands output_name
    group_separators second_theory output_extension hm hne]
  refine ⟨rfl, ?_⟩
  intro p hp
  simp only [List.append_assoc, List.mem_append, List.mem_singleton] at hp
  rcases hp with hp | hp | hp
  · simp [setup_events] at hp
  · rcases mem_theory_loop_shape hp with h | h <;>
      simp [DrawEvent.isAxvspanEv, DrawEvent.isTextEv] at h
  · exact DrawEvent.noConfusion hp

/-- Witness for the amended C1 at the spec's example inputs. -/
theorem C1_nonempty_invalid_mode_fails_without_output_witness :
    ([sampleA, sampleB] : List Result) ≠ [] ∧
    isValidLayoutMode "bogus" = false ∧
    (vertical_result_comparison 0 3 "x" [sampleA, sampleB] [sampleSM] "out"
      none "bogus" false "pdf").error
        = some (RenderError.unknownLayoutMode "bogus") ∧
    DrawEvent.savefig "out.pdf" ∉
      (vertical_result_comparison 0 3 "x" [sampleA, sampleB] [sampleSM] "out"
        none "bogus" false "pdf").events := by
  refine ⟨by decide, by decide, ?_, ?_⟩
  · exact (C1_nonempty_invalid_mode_fails_without_output 0 3 "x"
      [sampleA, sampleB] [sampleSM] "out" none "bogus" false "pdf"
      (by decide) (by decide)).1
  · exact (C1_nonempty_invalid_mode_fails_without_output 0 3 "x"
      [sampleA, sampleB] [sampleSM] "out" none "bogus" false "pdf"
      (by decide) (by decide)).2 "out.pdf"

/-- Claim C2, counterexample: at the spec's example inputs with
layout_mode "bogus", the failure is signalled, yet the error-bar point of
measurement "B" (value 2.0 at row 0, the last input element, first in
reversed order) is already in the trace -- refuting "no error-bar point for
any measurement is drawn before the failure". -/
theorem C2_cex_errorbar_drawn_before_failure :
    (vertical_result_comparison 0 3 "x" [sampleA, sampleB] [sampleSM] "out"
      none "bogus" false "pdf").error
        = some (RenderError.unknownLayoutMode "bogus") ∧
    DrawEvent.errorbar 2 0 (1/5) "o" 7 "black" 3 ∈
      (vertical_result_comparison 0 3 "x" [sampleA, sampleB] [sampleSM] "out"
        none "bogus" false "pdf").events := by
  have hne : ([sampleA, sampleB] : List Result) ≠ [] := by decide
  have hm : isValidLayoutMode "bogus" = false := by decide
  have h := vrc_eq_of_invalid 0 3 "x" [sampleSM] "out" none false "pdf" hm hne
  refine ⟨by rw [h], ?_⟩
  rw [h]
  refine List.mem_append_right _ ?_
  have hlast : ([sampleA, sampleB] : List Result).getLast hne = sampleB := rfl
  rw [hlast]
  exact List.mem_singleton.mpr rfl

/-- Claim C2 (amended): with a non-empty measurement list and an
unrecognized layout_mode, the failure is signalled after all drawing work
for theory bands and after exactly one measurement error-bar point -- that
of the last input element (drawn first in reversed order) -- with no
measurement text annotation drawn: the whole trace up to the failure is the
setup, the full theory-band loop, and that single error bar. -/
theorem C2_invalid_mode_fails_after_bands_and_one_errorbar
    (x_min x_max : ℚ) (observable : String) (results : List Result)
    (theory_bands : List TheoryBand) (output_name : String)
    (group_separators : Option (List ℤ)) (layout_mode : String)
    (second_theory : Bool) (output_extension : String)
    (hne : results ≠ []) (hm : isValidLayoutMode layout_mode = false) :
    vertical_result_comparison x_min x_max observable results theory_bands
      output_name group_separators layout_mode second_theory output_extension
    = { events := setup_events x_min x_max observable results.length
          ++ theory_loop x_min x_max (results.length : ℚ) layout_mode
               second_theory 0 theory_bands
          ++ [DrawEvent.errorbar (results.getLast hne).value 0
                (results.getLast hne).uncertainty
                (results.getLast hne).marker_style 7
                (results.getLast hne).color 3],
        error := some (RenderError.unknownLayoutMode layout_mode) } :=
  vrc_eq_of_invalid x_min x_max observable theory_bands output_name
    group_separators second_theory output_extension hm hne

/-- Witness for the amended C2 at the spec's example inputs. -/
theorem C2_invalid_mode_fails_after_bands_and_one_errorbar_witness :
    ([sampleA, sampleB] : List Result) ≠ [] ∧
    isValidLayoutMode "bogus" = false ∧
    vertical_result_comparison 0 3 "x" [sampleA, sampleB] [sampleSM] "out"
      none "bogus" false "pdf"
    = { events := setup_events 0 3 "x" 2
          ++ theory_loop 0 3 2 "bogus" false 0 [sampleSM]
          ++ [DrawEvent.errorbar 2 0 (1/5) "o" 7 "black" 3],
        error := some (RenderError.unknownLayoutMode "bogus") } := by
  refine ⟨by decide, by decide, ?_⟩
  have h := C2_invalid_mode_fails_after_bands_and_one_errorbar 0 3 "x"
    [sampleA, sampleB] [sampleSM] "out" none "bogus" false "pdf"
    (by decide) (by decide)
  rw [h]
  rfl

/-- Claim C8 (code bug evidence): at a concrete call with non-empty
measurements and the unknown layout_mode "bogus", the error propagates and
no closeFigure event occurs: the figure is NOT released on the error path.
The source calls plt.close() only after savefig (line 97), with no
try/finally guarding the ValueError raised at line 86. -/
theorem C8_error_path_does_not_close_figure :
    (vertical_result_comparison 0 3 "x" [sampleA, sampleB] [sampleSM] "out"
      none "bogus" false "pdf").error
        = some (RenderError.unknownLayoutMode "bogus") ∧
    DrawEvent.closeFigure ∉
      (vertical_result_comparison 0 3 "x" [sampleA, sampleB] [sampleSM] "out"
        none "bogus" false "pdf").events := by
  refine ⟨rfl, ?_⟩
  decide

/-- Claim C10: with an empty measurement list, no error is raised no matter
what the layout_mode string is (the measurement loop, which hosts the
validation, never runs and contributes no errorbar event), and the
degenerate figure is still written to {output_name}.{output_extension}. -/
theorem C10_empty_results_renders_for_any_mode
    (x_min x_max : ℚ) (observable : String) (theory_bands : List TheoryBand)
    (output_name : String) (group_separators : Option (List ℤ))
    (layout_mode : String) (second_theory : Bool) (output_extension : String) :
    (vertical_result_comparison x_min x_max observable [] theory_bands
      output_name group_separators layout_mode second_theory
      output_extension).error = none ∧
    DrawEvent.savefig (output_name ++ "." ++ output_extension) ∈
      (vertical_result_comparison x_min x_max observable [] theory_bands
        output_name group_separators layout_mode second_theory
        output_extension).events ∧
    ∀ ev ∈ (vertical_result_comparison x_min x_max observable [] theory_bands
      output_name group_separators layout_mode second_theory
      output_extension).events, ev.isErrorbarEv = false := by
  have hloop : result_loop x_min x_max layout_mode 0 ([] : List Result)
      = ([], none) := rfl
  refine ⟨?_, ?_, ?_⟩
  · simp [vertical_result_comparison, hloop]
  · simp [vertical_result_comparison, hloop]
  · intro ev hev
    simp only [vertical_result_comparison, hloop, List.reverse_nil,
      List.length_nil, List.nil_append, List.append_assoc,
      List.mem_append] at hev
    rcases hev with h | h | h | h
    · exact setup_events_no_errorbar x_min x_max observable 0 h
    · exact theory_loop_no_errorbar x_min x_max _ layout_mode second_theory h
    · exact separator_events_no_errorbar 0 group_separators h
    · exact final_events_no_errorbar (output_name ++ "." ++ output_extension) h

/-- Claim C3: for every non-empty measurement list and valid layout_mode,
row assignment is a pure function of input order: the measurement at
pre-reversal index k is drawn (its error-bar point) at row
y = n - 1 - k, so the first input element sits at the topmost row n-1 and
the last at row 0. -/
theorem C3_row_assignment (x_min x_max : ℚ) (observable : String)
    (results : List Result) (theory_bands : List TheoryBand)
    (output_name : String) (group_separators : Option (List ℤ))
    (layout_mode : String) (second_theory : Bool) (output_extension : String)
    (k : ℕ) (hm : isValidLayoutMode layout_mode = true)
    (hk : k < results.length) :
    DrawEvent.errorbar (results.get ⟨k, hk⟩).value
      ((results.length : ℚ) - 1 - (k : ℚ)) (results.get ⟨k, hk⟩).uncertainty
      (results.get ⟨k, hk⟩).marker_style 7 (results.get ⟨k, hk⟩).color 3
      ∈ (vertical_result_comparison x_min x_max observable results theory_bands
          output_name group_separators layout_mode second_theory
          output_extension).events := by
  have hj : results.length - 1 - k < results.reverse.length := by
    rw [List.length_reverse]
    omega
  have hmem := errorbar_mem_result_loop x_min x_max hm 0 results.reverse
    (results.length - 1 - k) hj
  have hget : results.reverse.get ⟨results.length - 1 - k, hj⟩
      = results.get ⟨k, hk⟩ := by
    simp only [List.get_eq_getElem, List.getElem_reverse]
    have hidx : results.length - 1 - (results.length - 1 - k) = k := by omega
    congr 1
  have hcast : ((0 + (results.length - 1 - k) : ℕ) : ℚ)
      = (results.length : ℚ) - 1 - (k : ℚ) := by
    have h1 : 0 + (results.length - 1 - k) = results.length - (1 + k) := by omega
    rw [h1, Nat.cast_sub (by omega)]
    push_cast
    ring
  rw [hget, hcast] at hmem
  rw [vrc_eq_of_valid x_min x_max observable results theory_bands output_name
    group_separators second_theory output_extension hm]
  simp only [List.append_assoc, List.mem_append]
  exact Or.inr (Or.inr (Or.inl hmem))

/-- Witness for C3 at the spec's example inputs: with two measurements and
layout_mode "right", the first input element "A" is drawn at row
y = 2 - 1 - 0 = 1 (the topmost row). -/
theorem C3_row_assignment_witness :
    isValidLayoutMode "right" = true ∧
    0 < ([sampleA, sampleB] : List Result).length ∧
    DrawEvent.errorbar (([sampleA, sampleB] : List Result).get
        ⟨0, by decide⟩).value
      ((([sampleA, sampleB] : List Result).length : ℚ) - 1 - ((0 : ℕ) : ℚ))
      (([sampleA, sampleB] : List Result).get ⟨0, by decide⟩).uncertainty
      (([sampleA, sampleB] : List Result).get ⟨0, by decide⟩).marker_style 7
      (([sampleA, sampleB] : List Result).get ⟨0, by decide⟩).color 3
      ∈ (vertical_result_comparison 0 3 "x" [sampleA, sampleB] [sampleSM]
          "out" none "right" false "pdf").events :=
  ⟨by decide, by decide,
   C3_row_assignment 0 3 "x" [sampleA, sampleB] [sampleSM] "out" none "right"
     false "pdf" 0 (by decide) (by decide)⟩

/-- Claim C4: in any call with a valid layout_mode (the position formula and
its membership do not depend on which of the four modes is chosen), every
provided group-separator index k yields a dashed gray separator line at
y = n - k - 0.5 where n is the measurement count. -/
theorem C4_group_separator_position (x_min x_max : ℚ) (observable : String)
    (results : List Result) (theory_bands : List TheoryBand)
    (output_name : String) (seps : List ℤ) (layout_mode : String)
    (second_theory : Bool) (output_extension : String) (k : ℤ)
    (hm : isValidLayoutMode layout_mode = true) (hk : k ∈ seps) :
    DrawEvent.axhline ((results.length : ℚ) - (k : ℚ) - 0.5) "--" "gray" 1 0.5
      ∈ (vertical_result_comparison x_min x_max observable results theory_bands
          output_name (some seps) layout_mode second_theory
          output_extension).events := by
  rw [vrc_eq_of_valid x_min x_max observable results theory_bands output_name
    (some seps) second_theory output_extension hm]
  simp only [List.append_assoc, List.mem_append]
  refine Or.inr (Or.inr (Or.inr (Or.inl ?_)))
  simp only [separator_events]
  exact List.mem_map_of_mem
    (fun j : ℤ =>
      DrawEvent.axhline ((results.length : ℚ) - (j : ℚ) - 0.5) "--" "gray" 1 0.5)
    hk

/-- Witness for C4 at the spec's example inputs: separator index 1 over two
measurements in mode "right" sits at y = 2 - 1 - 0.5. -/
theorem C4_group_separator_position_witness :
    isValidLayoutMode "right" = true ∧ (1 : ℤ) ∈ ([1] : List ℤ) ∧
    DrawEvent.axhline
        ((([sampleA, sampleB] : List Result).length : ℚ) - ((1 : ℤ) : ℚ) - 0.5)
        "--" "gray" 1 0.5
      ∈ (vertical_result_comparison 0 3 "x" [sampleA, sampleB] [sampleSM]
          "out" (some [1]) "right" false "pdf").events :=
  ⟨by decide, by decide,
   C4_group_separator_position 0 3 "x" [sampleA, sampleB] [sampleSM] "out"
     [1] "right" false "pdf" 1 (by decide) (by decide)⟩

/-- Claim C5: in every call, the shaded theory-band spans appearing in the
trace are exactly one per band, in input order, with the legend label
attached to the band at index 0 and no label on any band at index >= 1. -/
theorem C5_first_band_only_legend (x_min x_max : ℚ) (observable : String)
    (results : List Result) (theory_bands : List TheoryBand)
    (output_name : String) (group_separators : Option (List ℤ))
    (layout_mode : String) (second_theory : Bool) (output_extension : String) :
    ((vertical_result_comparison x_min x_max observable results theory_bands
      output_name group_separators layout_mode second_theory
      output_extension).events).filter DrawEvent.isAxvspanEv
      = axvspan_with_legend_policy 0 theory_bands := by
  rcases hres : (result_loop x_min x_max layout_mode 0 results.reverse).2 with _ | e <;>
    simp only [vertical_result_comparison, hres] <;>
    simp only [List.filter_append, filter_axvspan_setup,
      filter_axvspan_theory_loop, filter_axvspan_result_loop,
      filter_axvspan_separator_events, filter_axvspan_final] <;>
    simp

/-- Claim C6: when second_theory is false and a band exists at index 1, the
events drawn for that band are exactly its unlabelled shaded span and one
centered midpoint text whose content is the band's label only; that label
text occurs in the rendered trace, and no text whose content is a combined
value±uncertainty midpoint string (valErrLabel, the second_theory branch of
line 46) occurs anywhere in the trace. -/
theorem C6_band1_label_only (x_min x_max : ℚ) (observable : String)
    (results : List Result) (theory_bands : List TheoryBand)
    (output_name : String) (group_separators : Option (List ℤ))
    (layout_mode : String) (output_extension : String) (b : TheoryBand)
    (h1 : 1 < theory_bands.length)
    (hb : theory_bands.get ⟨1, h1⟩ = b) :
    theory_band_events x_min x_max (results.length : ℚ) layout_mode false 1 b
      = [DrawEvent.axvspan (b.val - b.err) (b.val + b.err) b.color 0.85 none,
         DrawEvent.text ((b.val - b.err + b.val + b.err) / 2)
           ((results.length : ℚ) - 0.4) (TextContent.raw b.label)
           HAlign.center VAlign.bottom 13 (some b.color) false] ∧
    DrawEvent.text ((b.val - b.err + b.val + b.err) / 2)
        ((results.length : ℚ) - 0.4) (TextContent.raw b.label)
        HAlign.center VAlign.bottom 13 (some b.color) false
      ∈ (vertical_result_comparison x_min x_max observable results theory_bands
          output_name group_separators layout_mode false
          output_extension).events ∧
    ∀ ev ∈ (vertical_result_comparison x_min x_max observable results
      theory_bands output_name group_separators layout_mode false
      output_extension).events, ev.hasValErrLabel = false := by
  have hshape : theory_band_events x_min x_max (results.length : ℚ)
      layout_mode false 1 b
      = [DrawEvent.axvspan (b.val - b.err) (b.val + b.err) b.color 0.85 none,
         DrawEvent.text ((b.val - b.err + b.val + b.err) / 2)
           ((results.length : ℚ) - 0.4) (TextContent.raw b.label)
           HAlign.center VAlign.bottom 13 (some b.color) false] := by
    simp [theory_band_events]
  refine ⟨hshape, ?_, ?_⟩
  · apply theory_loop_subset_vrc x_min x_max observable results theory_bands
      output_name group_separators layout_mode false output_extension
    apply theory_band_events_subset_loop x_min x_max (results.length : ℚ)
      layout_mode false 0 1 theory_bands h1
    rw [hb]
    simp only [Nat.zero_add]
    rw [hshape]
    simp
  · intro ev hev
    exact vrc_no_valErrLabel_of_not_second x_min x_max observable results
      theory_bands output_name group_separators layout_mode
      output_extension hev

/-- Witness for C6 with two bands (SM, 2H) and second_theory = false. -/
theorem C6_band1_label_only_witness :
    1 < ([sampleSM, sample2H] : List TheoryBand).length ∧
    (theory_band_events 0 3 ((([sampleA, sampleB] : List Result).length : ℚ))
        "right" false 1 sample2H
      = [DrawEvent.axvspan (sample2H.val - sample2H.err)
           (sample2H.val + sample2H.err) sample2H.color 0.85 none,
         DrawEvent.text
           ((sample2H.val - sample2H.err + sample2H.val + sample2H.err) / 2)
           ((([sampleA, sampleB] : List Result).length : ℚ) - 0.4)
           (TextContent.raw sample2H.label)
           HAlign.center VAlign.bottom 13 (some sample2H.color) false] ∧
     DrawEvent.text
         ((sample2H.val - sample2H.err + sample2H.val + sample2H.err) / 2)
         ((([sampleA, sampleB] : List Result).length : ℚ) - 0.4)
         (TextContent.raw sample2H.label)
         HAlign.center VAlign.bottom 13 (some sample2H.color) false
       ∈ (vertical_result_comparison 0 3 "x" [sampleA, sampleB]
           [sampleSM, sample2H] "out" none "right" false "pdf").events ∧
     ∀ ev ∈ (vertical_result_comparison 0 3 "x" [sampleA, sampleB]
         [sampleSM, sample2H] "out" none "right" false "pdf").events,
       ev.hasValErrLabel = false) :=
  ⟨by decide,
   C6_band1_label_only 0 3 "x" [sampleA, sampleB] [sampleSM, sample2H] "out"
     none "right" "pdf" sample2H (by decide) rfl⟩

/-- Claim C7: whenever the theory-band list is non-empty, the band at index
0 additionally gets its value±uncertainty text near the top-right of the
plot (y = n - 0.4): at x = x_max + 2% of the axis span, left-aligned, when
layout_mode is "outside"; otherwise at x = x_max, right-aligned. -/
theorem C7_band0_valErr_topright (x_min x_max : ℚ) (observable : String)
    (results : List Result) (theory_bands : List TheoryBand)
    (output_name : String) (group_separators : Option (List ℤ))
    (layout_mode : String) (second_theory : Bool) (output_extension : String)
    (b : TheoryBand) (rest : List TheoryBand)
    (hb : theory_bands = b :: rest) :
    (layout_mode = "outside" →
      DrawEvent.text (x_max + (x_max - x_min) * 0.02)
        ((results.length : ℚ) - 0.4) (TextContent.valErr b.val b.err)
        HAlign.left VAlign.bottom 13 (some b.color) false
        ∈ (vertical_result_comparison x_min x_max observable results
            theory_bands output_name group_separators layout_mode
            second_theory output_extension).events) ∧
    (layout_mode ≠ "outside" →
      DrawEvent.text x_max ((results.length : ℚ) - 0.4)
        (TextContent.valErr b.val b.err) HAlign.right VAlign.bottom 13
        (some b.color) false
        ∈ (vertical_result_comparison x_min x_max observable results
            theory_bands output_name group_separators layout_mode
            second_theory output_extension).events) := by
  subst hb
  constructor <;> intro hmode <;>
    apply theory_loop_subset_vrc x_min x_max observable results (b :: rest)
      output_name group_separators layout_mode second_theory
      output_extension <;>
    simp only [theory_loop, List.mem_append] <;>
    exact Or.inl (by simp [theory_band_events, hmode])

/-- Witness for C7 with one band and the non-outside mode "right": the
value±uncertainty text sits at x = x_max, right-aligned. -/
theorem C7_band0_valErr_topright_witness :
    ([sampleSM] : List TheoryBand) = sampleSM :: [] ∧
    DrawEvent.text 3 ((([sampleA, sampleB] : List Result).length : ℚ) - 0.4)
      (TextContent.valErr sampleSM.val sampleSM.err) HAlign.right
      VAlign.bottom 13 (some sampleSM.color) false
      ∈ (vertical_result_comparison 0 3 "x" [sampleA, sampleB] [sampleSM]
          "out" none "right" false "pdf").events :=
  ⟨rfl,
   (C7_band0_valErr_topright 0 3 "x" [sampleA, sampleB] [sampleSM] "out" none
     "right" false "pdf" sampleSM [] rfl).2 (by decide)⟩

/-- Claim C9: two calls whose measurement lists agree on the first five
tuple fields (name, value, uncertainty, color, marker) of every element --
i.e. differ at most in the sixth, publication-status field -- produce
identical outcomes: the flag is unpacked (line 60) but never read. -/
theorem C9_publication_flag_unused (x_min x_max : ℚ) (observable : String)
    (results1 results2 : List Result) (theory_bands : List TheoryBand)
    (output_name : String) (group_separators : Option (List ℤ))
    (layout_mode : String) (second_theory : Bool) (output_extension : String)
    (h : results1.map forgetFlag = results2.map forgetFlag) :
    vertical_result_comparison x_min x_max observable results1 theory_bands
      output_name group_separators layout_mode second_theory output_extension
    = vertical_result_comparison x_min x_max observable results2 theory_bands
        output_name group_separators layout_mode second_theory
        output_extension := by
  rw [← vrc_forgetFlag x_min x_max observable results1 theory_bands
    output_name group_separators layout_mode second_theory output_extension,
    ← vrc_forgetFlag x_min x_max observable results2 theory_bands
    output_name group_separators layout_mode second_theory output_extension,
    h]

/-- Witness for C9: flipping only the publication flag of "A" leaves the
outcome unchanged. -/
theorem C9_publication_flag_unused_witness :
    ([sampleA] : List Result).map forgetFlag
      = ([sampleA_private] : List Result).map forgetFlag ∧
    vertical_result_comparison 0 3 "x" [sampleA] [sampleSM] "out" none
      "right" false "pdf"
    = vertical_result_comparison 0 3 "x" [sampleA_private] [sampleSM] "out"
        none "right" false "pdf" :=
  ⟨rfl,
   C9_publication_flag_unused 0 3 "x" [sampleA] [sampleA_private] [sampleSM]
     "out" none "right" false "pdf" rfl⟩
